import Mathlib

/-!
Verification of the bootstrap-and-dispatch orchestrator of sbctl
(`cmd/sbctl/main.go`): configuration resolution, capability negotiation
(TPM transport and firmware-variable store), sandbox gating, command
dispatch, and the top-level error classifier.

The embedding models the `main` function as a pure function from an
environment (filesystem facts, hardware-open outcomes, parsed flags,
subcommand result) to a run result carrying the ordered list of observable
events, the process exit code, and the state visible to the subcommand.
External collaborators that live outside the visible file
(`config.HasOldConfig`, `config.NewConfig`, the `efivarfs` negotiation
chain, `logging`, cobra's execution order) are modelled from their
documented contracts; each such definition says so in its doc comment.
-/

namespace Sbctl

/-- Resolved configuration. Modelled from the spec's data model: the
attributes relevant to bootstrap are the landlock-sandboxing boolean and
the source format (legacy, current-format file, or built-in defaults);
the full `config.Config` struct lives outside the visible file. -/
inductive SourceFormat where
  | legacy
  | current
  | defaults
  deriving Repr, DecidableEq

structure Config where
  landlock : Bool
  source : SourceFormat
  deriving Repr, DecidableEq

/-- Modelled from the spec: `config.DefaultConfig()` returns built-in
defaults with sandboxing enabled ("sandboxing defaults to enabled"). -/
def defaultConfig : Config := { landlock := true, source := .defaults }

/-- Modelled from the spec: `config.OldConfig(sbctl.DatabasePath)` loads the
legacy configuration through the compatibility adapter; sandboxing defaults
to enabled there as well. -/
def oldConfig : Config := { landlock := true, source := .legacy }

/-- A Go error value as seen by the top-level classifier: its rendered
message (`err.Error()`), and for each sentinel identity tested with
`errors.Is`, whether that sentinel occurs in the error's wrap chain. -/
structure GoError where
  msg : String
  isPermission : Bool := false
  isImmutable : Bool := false
  isOprom : Bool := false
  isNoEventlog : Bool := false
  isSetupModeDisabled : Bool := false
  isSilent : Bool := false
  deriving Repr, DecidableEq

/-- `ErrSilent = errors.New("SilentErr")` (main.go line 40). -/
def errSilent : GoError := { msg := "SilentErr", isSilent := true }

/-- `os.ErrPermission`, rendered as "permission denied". -/
def errPermission : GoError := { msg := "permission denied", isPermission := true }

/-- Modelled from the spec: `sbctl.ErrImmutable`, the distinguished
immutable-store error identity defined by a deeper subsystem. -/
def errImmutable : GoError := { msg := "file is immutable", isImmutable := true }

/-- Modelled from the spec: `sbctl.ErrOprom`, the option-ROM-detected
error identity defined by a deeper subsystem. -/
def errOprom : GoError := { msg := "oprom detected", isOprom := true }

/-- Modelled from the spec: `sbctl.ErrNoEventlog`, the missing
measured-boot-eventlog error identity defined by a deeper subsystem. -/
def errNoEventlog : GoError := { msg := "no eventlog found", isNoEventlog := true }

/-- Modelled from the spec: `ErrSetupModeDisabled`, the setup-mode-disabled
error identity defined in another file of package main. -/
def errSetupModeDisabled : GoError :=
  { msg := "setup mode disabled", isSetupModeDisabled := true }

/-- The fixed remediation strings of main.go lines 47-57. -/
def baseErrorMsg : String :=
  "\n\nThere are three flags that can be used:\n    --microsoft: Enroll the Microsoft OEM certificates into the signature database.\n    --tpm-eventlog: Enroll OpRom checksums into the signature database (experimental!).\n    --yes-this-might-brick-my-machine: Ignore this warning and continue regardless.\n\nPlease read the FAQ for more information: https://github.com/Foxboron/sbctl/wiki/FAQ#option-rom"

def opromErrorMsg : String :=
  "Found OptionROM in the bootchain. This means we should not enroll keys into UEFI without some precautions." ++ baseErrorMsg

def noEventlogErrorMsg : String :=
  "Could not find any TPM Eventlog in the system. This means we do not know if there is any OptionROM present on the system." ++ baseErrorMsg

def setupModeDisabled : String :=
  "Your system is not in Setup Mode! Please reboot your machine and reset secure boot keys before attempting to enroll the keys."

def immutableRemediation : String := "You need to chattr -i files in efivarfs"

/-- Go's `strings.HasPrefix(s, pat)` (main.go line 170), modelled over the
strings' character sequences so that it evaluates. -/
def hasMsgHead (pat s : String) : Bool := pat.data.isPrefixOf s.data

/-- One output action of the top-level error handler (main.go 169-186). -/
inductive OutputAction where
  | rawUnknown
  | permissionDenied
  | immutableStore
  | opromWarn
  | noEventlogWarn
  | setupModeWarn
  | fallback
  | silent
  deriving Repr, DecidableEq

/-- The if/else-if chain of main.go lines 170-184: a textual check for
"unknown command" first, then `errors.Is` checks against each sentinel in
source order, then the fallback `logging.Error(err)` guarded by
`!errors.Is(err, ErrSilent)`. -/
def classify (e : GoError) : OutputAction :=
  if hasMsgHead "unknown command" e.msg then .rawUnknown
  else if e.isPermission then .permissionDenied
  else if e.isImmutable then .immutableStore
  else if e.isOprom then .opromWarn
  else if e.isNoEventlog then .noEventlogWarn
  else if e.isSetupModeDisabled then .setupModeWarn
  else if !e.isSilent then .fallback
  else .silent

/-- The lines each branch of the classifier prints. `logging.Error` and
`logging.Println` (repo code outside the visible file) are modelled, from
the spec's description of the classifier, as printing the given message. -/
def actionOutput (e : GoError) : List String :=
  match classify e with
  | .rawUnknown => [e.msg]
  | .permissionDenied => ["sbctl requires root to run: " ++ e.msg]
  | .immutableStore => [immutableRemediation]
  | .opromWarn => [opromErrorMsg]
  | .noEventlogWarn => [noEventlogErrorMsg]
  | .setupModeWarn => [setupModeDisabled]
  | .fallback => [e.msg]
  | .silent => []

/-- Whether a given branch's condition holds for an error, branch by branch
as written in the source; the fallback branch accepts every error. -/
def branchMatches (e : GoError) : OutputAction → Bool
  | .rawUnknown => hasMsgHead "unknown command" e.msg
  | .permissionDenied => e.isPermission
  | .immutableStore => e.isImmutable
  | .opromWarn => e.isOprom
  | .noEventlogWarn => e.isNoEventlog
  | .setupModeWarn => e.isSetupModeDisabled
  | .silent => e.isSilent
  | .fallback => true

/-- The classifier's branch order as it appears in the source, the silent
branch standing before the fallback because the fallback is guarded by
`!errors.Is(err, ErrSilent)`. -/
def priorityOrder : List OutputAction :=
  [.rawUnknown, .permissionDenied, .immutableStore, .opromWarn,
   .noEventlogWarn, .setupModeWarn, .silent, .fallback]

/-- Observable events of one process run, in program order. -/
inductive Event where
  | warnMigration
  | fatalConfig
  | tpmOpenAttempt (ok : Bool)
  | storeCheckImmutable
  | storeClearImmutable
  | storeOpenRW
  | sandboxApply
  | landlockOverride
  | verbositySet (debug : Bool)
  | tpmDebugDiag (errMsg : String)
  | usagePrinted
  | runSubcommand
  | printLine (s : String)
  | tpmClose
  deriving Repr, DecidableEq

/-- The persistent flags registered in `baseFlags` (main.go lines 62-66),
as they stand after cobra has parsed the command line. -/
structure FlagSet where
  jsonOutput : Bool := false
  quietOutput : Bool := false
  disableLandlock : Bool := false
  debug : Bool := false
  configPath : String := ""
  deriving Repr, DecidableEq

/-- Everything the run depends on that comes from outside `main`:
filesystem facts consulted by configuration resolution, the outcome of the
two hardware-open attempts, the parsed command line, and the error the
selected subcommand would return. `parsedConf` is the result of
`config.NewConfig` on the bytes read (modelled from the spec: the parsing
service returns a configuration or fails). -/
structure Env where
  hasOldConfig : Bool
  confFileExists : Bool
  readOk : Bool
  parsedConf : Option Config
  tpmOk : Bool
  tpmErrMsg : String
  storeImmutable : Bool
  storeClearOk : Bool
  flags : FlagSet
  flagsOk : Bool
  unknownCmd : Option String
  subErr : Option GoError
  deriving Repr, DecidableEq

/-- Outcome of configuration resolution: a configuration plus the events it
printed, or fatal termination (`log.Fatal`). -/
inductive CfgOut where
  | ok (c : Config) (evs : List Event)
  | fatal (evs : List Event)
  deriving Repr, DecidableEq

/-- Configuration resolution, main.go lines 99-113. `config.HasOldConfig`,
`config.HasConfigurationFile` and `afero.Exists` live outside the visible
file; modelled from the spec, the latter two are the same predicate — a
current-format file exists at the canonical path `/etc/sbctl/sbctl.conf` —
held in `confFileExists`. A read failure or a parse failure hits
`log.Fatal`, which exits the process with status 1. -/
def resolveConfig (env : Env) : CfgOut :=
  if env.hasOldConfig && !env.confFileExists then
    .ok oldConfig [Event.warnMigration]
  else if env.confFileExists then
    if env.readOk then
      match env.parsedConf with
      | some c => .ok c []
      | none => .fatal [Event.fatalConfig]
    else .fatal [Event.fatalConfig]
  else .ok defaultConfig []

/-- Outcome of the firmware-variable-store negotiation: the steps taken and
the distinguished error, if any. -/
structure StoreResult where
  events : List Event
  storeErr : Option GoError
  deriving Repr, DecidableEq

/-- Modelled from the spec: the chain
`efivarfs.NewFS().CheckImmutable().UnsetImmutable().Open()` (main.go lines
129-132) performs an ordered negotiation — detect the immutable flag, clear
it if set, then open the store — where each step depends on the previous
and a clear failure propagates as the distinguished immutable-store error
(`sbctl.ErrImmutable`). -/
def negotiateStore (env : Env) : StoreResult :=
  if env.storeImmutable then
    if env.storeClearOk then
      { events := [Event.storeCheckImmutable, Event.storeClearImmutable,
                   Event.storeOpenRW],
        storeErr := none }
    else
      { events := [Event.storeCheckImmutable, Event.storeClearImmutable],
        storeErr := some errImmutable }
  else
    { events := [Event.storeCheckImmutable, Event.storeOpenRW],
      storeErr := none }

/-- State of the `logging` package's switches: whether printing is on at
all (`logging.PrintOff` / `PrintOn`) and whether informational output is
on (`logging.DisableInfo`). Both start on. -/
structure LogState where
  printOn : Bool
  infoOn : Bool
  deriving Repr, DecidableEq

def initLogState : LogState := { printOn := true, infoOn := true }

/-- The persistent pre-run hook installed by `baseFlags` (main.go lines
68-75): with `--json` it calls `logging.PrintOff()`, with `--quiet` it sets
`logging.DisableInfo`. -/
def baseFlagsPreRunLog (fl : FlagSet) (st : LogState) : LogState :=
  let st1 := if fl.jsonOutput then { st with printOn := false } else st
  if fl.quietOutput then { st1 with infoOn := false } else st1

/-- The persistent pre-run hook assigned in `main` (main.go lines 136-154):
it applies the landlock override, configures `slog` verbosity and emits the
deferred TPM diagnostic; it does not touch the `logging` switches. -/
def mainPreRunLog (_fl : FlagSet) (st : LogState) : LogState := st

/-- cobra keeps a single `PersistentPreRun` per command: the assignment at
main.go line 136 replaces the hook installed by `baseFlags` at line 68, so
only the hook of lines 136-154 runs at dispatch. -/
def effectivePreRunLog : FlagSet → LogState → LogState := mainPreRunLog

/-- The events emitted by the effective persistent pre-run (main.go lines
136-154): the landlock override when `--disable-landlock` is given, the
verbosity finalization, then — `slog.Debug` emitting only at debug level —
the deferred TPM-absence diagnostic carrying the retained open error. -/
def preRunEvents (env : Env) : List Event :=
  (if env.flags.disableLandlock then [Event.landlockOverride] else [])
    ++ [Event.verbositySet env.flags.debug]
    ++ (if !env.tpmOk && env.flags.debug then
          [Event.tpmDebugDiag env.tpmErrMsg] else [])

/-- The landlock override applied by the pre-run hook (main.go lines
137-139): `--disable-landlock` forces `state.Config.Landlock` to false. -/
def applyOverride (fl : FlagSet) (c : Config) : Config :=
  if fl.disableLandlock then { c with landlock := false } else c

/-- Result of `rootCmd.ExecuteContext`: events, returned error, and — when
the persistent pre-run and a subcommand actually ran — the configuration
and logging state the subcommand observes. -/
structure ExecResult where
  events : List Event
  err : Option GoError
  subConf : Option Config
  subLog : Option LogState
  deriving Repr, DecidableEq

/-- Modelled from cobra's documented execution order: command lookup first
(an unrecognized name returns an error of the form `unknown command "x" for
"sbctl"` without running hooks), then flag parsing (a syntax failure runs
the `SetFlagErrorFunc` handler of main.go lines 163-167, which prints the
error plus usage and returns `ErrSilent`), then the persistent pre-run,
then the subcommand. A subcommand needing the store fails with the
negotiation's distinguished error when negotiation failed (modelled from
the spec: store access is required for essentially all subcommands and the
clear failure propagates); otherwise it returns `env.subErr`. -/
def executeCmd (env : Env) (conf : Config) (storeErr : Option GoError) :
    ExecResult :=
  match env.unknownCmd with
  | some name =>
    { events := [],
      err := some { msg := "unknown command \"" ++ name ++ "\" for \"sbctl\"" },
      subConf := none, subLog := none }
  | none =>
    if env.flagsOk then
      { events := preRunEvents env ++ [Event.runSubcommand],
        err := match storeErr with
               | some e => some e
               | none => env.subErr,
        subConf := some (applyOverride env.flags conf),
        subLog := some (effectivePreRunLog env.flags initLogState) }
    else
      { events := [Event.usagePrinted], err := some errSilent,
        subConf := none, subLog := none }

/-- Result of a whole process run. -/
structure RunResult where
  events : List Event
  exitCode : Nat
  subConf : Option Config
  subLog : Option LogState
  dispatchErr : Option GoError
  fatalCfg : Bool
  deriving Repr, DecidableEq

/-- The whole of `main` (main.go lines 90-187), in program order:
configuration resolution (99-113) — `log.Fatal` exits 1 straight away —
then `transport.OpenTPM` (118), the store negotiation inside the `State`
construction (123-133), the sandbox gate (158-160) which consults
`state.Config.Landlock` as resolved — the flag override runs only later,
inside `ExecuteContext`'s pre-run — then dispatch (169) and the error
classifier (170-186). On a dispatch error the process leaves through
`os.Exit(1)`, which in Go does not run deferred calls, so the
`defer rwc.Close()` of line 120 runs only when `main` returns normally. -/
def mainRun (env : Env) : RunResult :=
  match resolveConfig env with
  | .fatal evs =>
    { events := evs, exitCode := 1, subConf := none, subLog := none,
      dispatchErr := none, fatalCfg := true }
  | .ok conf evs0 =>
    let store := negotiateStore env
    let boot := evs0 ++ [Event.tpmOpenAttempt env.tpmOk] ++ store.events
      ++ (if conf.landlock then [Event.sandboxApply] else [])
    let ex := executeCmd env conf store.storeErr
    match ex.err with
    | some e =>
      { events := boot ++ ex.events ++ (actionOutput e).map Event.printLine,
        exitCode := 1, subConf := ex.subConf, subLog := ex.subLog,
        dispatchErr := some e, fatalCfg := false }
    | none =>
      { events := boot ++ ex.events
          ++ (if env.tpmOk then [Event.tpmClose] else []),
        exitCode := 0, subConf := ex.subConf, subLog := ex.subLog,
        dispatchErr := none, fatalCfg := false }

/-- Event `a` has an occurrence strictly before an occurrence of `b` in
the list. -/
def eventBefore (a b : Event) (l : List Event) : Prop :=
  ∃ l1 l2 l3, l = l1 ++ a :: l2 ++ b :: l3

/-- A plain run: no configuration files, TPM present, store mutable, flags
parse, subcommand found and succeeding. -/
def envBase : Env :=
  { hasOldConfig := false, confFileExists := false, readOk := true,
    parsedConf := none, tpmOk := true, tpmErrMsg := "",
    storeImmutable := false, storeClearOk := true, flags := {},
    flagsOk := true, unknownCmd := none, subErr := none }

/-- The events following dispatch: classifier output on an error, the
deferred `rwc.Close()` on normal return with an open transport. -/
def runTail (env : Env) (c : Config) : List Event :=
  match (executeCmd env c (negotiateStore env).storeErr).err with
  | some er => (actionOutput er).map Event.printLine
  | none => if env.tpmOk then [Event.tpmClose] else []

/-- A run whose TPM transport failed to open, with `--debug` given. -/
def envTpmAbsent : Env :=
  { hasOldConfig := false, confFileExists := false, readOk := true,
    parsedConf := none, tpmOk := false, tpmErrMsg := "no tpm device",
    storeImmutable := false, storeClearOk := true,
    flags := { debug := true }, flagsOk := true, unknownCmd := none,
    subErr := none }

/-- A run whose store reports immutable and whose clear step fails. -/
def envStoreStuck : Env :=
  { hasOldConfig := false, confFileExists := false, readOk := true,
    parsedConf := none, tpmOk := true, tpmErrMsg := "",
    storeImmutable := true, storeClearOk := false, flags := {},
    flagsOk := true, unknownCmd := none, subErr := none }

/-- A run with a current-format file present and `--config` pointing at an
alternative path. -/
def envCfgFlag : Env :=
  { hasOldConfig := false, confFileExists := true, readOk := true,
    parsedConf := some { landlock := true, source := .current },
    tpmOk := true, tpmErrMsg := "",
    storeImmutable := false, storeClearOk := true,
    flags := { configPath := "/etc/alternative/sbctl.conf" },
    flagsOk := true, unknownCmd := none, subErr := none }

/-- The run of `envCfgFlag` without the `--config` flag. -/
def envCfgNoFlag : Env := { envCfgFlag with flags := {} }

/-- A run with `--json` given, everything else plain. -/
def envJson : Env := { envBase with flags := { jsonOutput := true } }

/-- A plain successful run returns from main with exit status 0, closing
its transport, in the program order of the embedded bootstrap. -/
theorem envBase_run_shape :
    (mainRun envBase).exitCode = 0 ∧
    (mainRun envBase).events =
      [Event.tpmOpenAttempt true, Event.storeCheckImmutable,
       Event.storeOpenRW, Event.sandboxApply, Event.verbositySet false,
       Event.runSubcommand, Event.tpmClose] := by decide

/-- A run of a configuration-resolution branch that returns a
configuration emits at most the single migration warning before moving
on. -/
theorem resolve_ok_evs (env : Env) (c : Config) (evs : List Event)
    (h : resolveConfig env = .ok c evs) :
    evs = [] ∨ evs = [Event.warnMigration] := by
  unfold resolveConfig at h
  cases h1 : env.hasOldConfig <;> cases h2 : env.confFileExists <;>
  cases h3 : env.readOk <;> cases h4 : env.parsedConf <;>
    simp [h1, h2, h3, h4] at h <;> simp_all

/-- Fatal resolution emits exactly the fatal-error report. -/
theorem resolve_fatal_evs (env : Env) (evs : List Event)
    (h : resolveConfig env = .fatal evs) : evs = [Event.fatalConfig] := by
  unfold resolveConfig at h
  cases h1 : env.hasOldConfig <;> cases h2 : env.confFileExists <;>
  cases h3 : env.readOk <;> cases h4 : env.parsedConf <;>
    simp [h1, h2, h3, h4] at h <;> simp_all

/-- Which events store negotiation can emit, and under which conditions. -/
theorem store_events_cases (env : Env) {e : Event}
    (h : e ∈ (negotiateStore env).events) :
    e = Event.storeCheckImmutable ∨
    (env.storeImmutable = true ∧ e = Event.storeClearImmutable) ∨
    ((env.storeImmutable = false ∨ env.storeClearOk = true) ∧
      e = Event.storeOpenRW) := by
  cases h1 : env.storeImmutable <;> cases h2 : env.storeClearOk <;>
    simp [negotiateStore, h1, h2] at h ⊢ <;> tauto

/-- Which events the effective pre-run can emit, and under which
conditions. -/
theorem preRun_events_cases (env : Env) {e : Event}
    (h : e ∈ preRunEvents env) :
    (env.flags.disableLandlock = true ∧ e = Event.landlockOverride) ∨
    e = Event.verbositySet env.flags.debug ∨
    (env.tpmOk = false ∧ env.flags.debug = true ∧
      e = Event.tpmDebugDiag env.tpmErrMsg) := by
  cases h1 : env.flags.disableLandlock <;> cases h2 : env.flags.debug <;>
  cases h3 : env.tpmOk <;> simp [preRunEvents, h1, h2, h3] at h ⊢ <;> tauto

/-- Which events dispatch can emit. -/
theorem exec_events_cases (env : Env) (c : Config) (se : Option GoError)
    {e : Event} (h : e ∈ (executeCmd env c se).events) :
    e = Event.usagePrinted ∨ e = Event.runSubcommand ∨
    e ∈ preRunEvents env := by
  cases hu : env.unknownCmd <;> cases hf : env.flagsOk <;>
    simp [executeCmd, hu, hf] at h <;> tauto

/-- Which events the post-dispatch tail can emit: classifier print lines,
or the deferred transport close on the error-free path. -/
theorem runTail_cases (env : Env) (c : Config) {e : Event}
    (h : e ∈ runTail env c) :
    (∃ s, e = Event.printLine s) ∨
    ((executeCmd env c (negotiateStore env).storeErr).err = none ∧
      env.tpmOk = true ∧ e = Event.tpmClose) := by
  cases he : (executeCmd env c (negotiateStore env).storeErr).err with
  | none =>
    simp [runTail, he] at h
    cases ht : env.tpmOk <;> simp [ht] at h
    exact Or.inr ⟨rfl, rfl, h⟩
  | some er =>
    simp [runTail, he] at h
    rcases h with ⟨s, _, rfl⟩
    exact Or.inl ⟨s, rfl⟩

/-- The event list of a run whose configuration resolution succeeded, in
program order: resolution output, TPM open, store negotiation, the sandbox
gate on the resolved configuration, dispatch, then classifier output or
the deferred close. -/
theorem mainRun_ok_events (env : Env) (c : Config) (evs : List Event)
    (h : resolveConfig env = .ok c evs) :
    (mainRun env).events =
      evs ++ [Event.tpmOpenAttempt env.tpmOk] ++ (negotiateStore env).events
        ++ (if c.landlock then [Event.sandboxApply] else [])
        ++ (executeCmd env c (negotiateStore env).storeErr).events
        ++ runTail env c := by
  cases he : (executeCmd env c (negotiateStore env).storeErr).err <;>
    simp [mainRun, runTail, h, he, List.append_assoc]

/-- A fatal configuration resolution is the whole run: its report is the
only output, the exit status is 1, and nothing was dispatched. -/
theorem mainRun_fatal (env : Env) (evs : List Event)
    (h : resolveConfig env = .fatal evs) :
    (mainRun env).events = [Event.fatalConfig] ∧
    (mainRun env).exitCode = 1 := by
  have hevs := resolve_fatal_evs env evs h
  subst hevs
  simp [mainRun, h]

/-- Every event of a resolution-ok run is one of the known vocabulary, each
guarded by the condition under which the code emits it. -/
theorem mainRun_ok_mem_vocab (env : Env) (c : Config) (evs : List Event)
    (h : resolveConfig env = .ok c evs) {e : Event}
    (hm : e ∈ (mainRun env).events) :
    e = Event.warnMigration ∨
    e = Event.tpmOpenAttempt env.tpmOk ∨
    e = Event.storeCheckImmutable ∨
    (env.storeImmutable = true ∧ e = Event.storeClearImmutable) ∨
    ((env.storeImmutable = false ∨ env.storeClearOk = true) ∧
      e = Event.storeOpenRW) ∨
    (c.landlock = true ∧ e = Event.sandboxApply) ∨
    e = Event.usagePrinted ∨
    e = Event.runSubcommand ∨
    (env.flags.disableLandlock = true ∧ e = Event.landlockOverride) ∨
    e = Event.verbositySet env.flags.debug ∨
    (env.tpmOk = false ∧ env.flags.debug = true ∧
      e = Event.tpmDebugDiag env.tpmErrMsg) ∨
    (∃ s, e = Event.printLine s) ∨
    ((executeCmd env c (negotiateStore env).storeErr).err = none ∧
      env.tpmOk = true ∧ e = Event.tpmClose) := by
  rw [mainRun_ok_events env c evs h] at hm
  simp only [List.append_assoc, List.mem_append, List.mem_singleton] at hm
  rcases hm with hm | hm | hm | hm | hm | hm
  · rcases resolve_ok_evs env c evs h with rfl | rfl
    · simp at hm
    · simp at hm
      exact Or.inl hm
  · exact Or.inr (Or.inl hm)
  · rcases store_events_cases env hm with h1 | h1 | h1
    · exact Or.inr (Or.inr (Or.inl h1))
    · exact Or.inr (Or.inr (Or.inr (Or.inl h1)))
    · exact Or.inr (Or.inr (Or.inr (Or.inr (Or.inl h1))))
  · by_cases hl : c.landlock = true
    · simp [hl] at hm
      exact Or.inr (Or.inr (Or.inr (Or.inr (Or.inr (Or.inl ⟨hl, hm⟩)))))
    · simp [hl] at hm
  · rcases exec_events_cases env c _ hm with h1 | h1 | h1
    · exact Or.inr (Or.inr (Or.inr (Or.inr (Or.inr (Or.inr (Or.inl h1))))))
    · exact Or.inr (Or.inr (Or.inr (Or.inr (Or.inr (Or.inr (Or.inr
        (Or.inl h1)))))))
    · rcases preRun_events_cases env h1 with h2 | h2 | h2
      · exact Or.inr (Or.inr (Or.inr (Or.inr (Or.inr (Or.inr (Or.inr
          (Or.inr (Or.inl h2))))))))
      · exact Or.inr (Or.inr (Or.inr (Or.inr (Or.inr (Or.inr (Or.inr
          (Or.inr (Or.inr (Or.inl h2)))))))))
      · exact Or.inr (Or.inr (Or.inr (Or.inr (Or.inr (Or.inr (Or.inr
          (Or.inr (Or.inr (Or.inr (Or.inl h2))))))))))
  · rcases runTail_cases env c hm with h1 | h1
    · exact Or.inr (Or.inr (Or.inr (Or.inr (Or.inr (Or.inr (Or.inr
        (Or.inr (Or.inr (Or.inr (Or.inr (Or.inl h1)))))))))))
    · exact Or.inr (Or.inr (Or.inr (Or.inr (Or.inr (Or.inr (Or.inr
        (Or.inr (Or.inr (Or.inr (Or.inr (Or.inr h1)))))))))))

/-- The subcommand-visible configuration is whatever dispatch produced,
on either exit path. -/
theorem mainRun_subConf (env : Env) (c : Config) (evs : List Event)
    (h : resolveConfig env = .ok c evs) :
    (mainRun env).subConf =
      (executeCmd env c (negotiateStore env).storeErr).subConf := by
  cases he : (executeCmd env c (negotiateStore env).storeErr).err <;>
    simp [mainRun, h, he]

/-- When dispatch reaches a subcommand, the configuration it observes is
the resolved one with the landlock override applied. -/
theorem executeCmd_subConf (env : Env) (c : Config) (se : Option GoError)
    (c2 : Config) (h : (executeCmd env c se).subConf = some c2) :
    c2 = applyOverride env.flags c := by
  cases hu : env.unknownCmd with
  | some nm => simp [executeCmd, hu] at h
  | none =>
    cases hf : env.flagsOk <;> simp [executeCmd, hf, hu] at h
    exact h.symm

/-- The override clears the landlock field exactly when the flag is
given. -/
theorem applyOverride_landlock (fl : FlagSet) (c : Config) :
    (applyOverride fl c).landlock = (c.landlock && !fl.disableLandlock) := by
  cases hd : fl.disableLandlock <;> simp [applyOverride, hd]

/-- C2: for every error returned by dispatch, the top-level classifier
selects exactly one output action, namely the first branch in the source's
priority order whose condition matches (the silent branch standing before
the raw-print fallback); the silent classification produces no output; and
the process exit code is always 0 or 1, with 0 exactly on runs with no
fatal configuration error and no dispatch error. -/
theorem c2_classifier_priority_and_exit :
    ∀ (e : GoError) (env : Env),
      priorityOrder.find? (branchMatches e) = some (classify e) ∧
      (classify e = .silent → actionOutput e = []) ∧
      ((mainRun env).exitCode = 0 ∨ (mainRun env).exitCode = 1) ∧
      ((mainRun env).exitCode = 0 ↔
        ((mainRun env).fatalCfg = false ∧ (mainRun env).dispatchErr = none)) := by
  intro e env
  refine ⟨?_, ?_, ?_, ?_⟩
  · cases hp : hasMsgHead "unknown command" e.msg <;>
    cases h1 : e.isPermission <;> cases h2 : e.isImmutable <;>
    cases h3 : e.isOprom <;> cases h4 : e.isNoEventlog <;>
    cases h5 : e.isSetupModeDisabled <;> cases h6 : e.isSilent <;>
      simp [classify, priorityOrder, branchMatches, List.find?, hp, h1, h2,
            h3, h4, h5, h6]
  · intro h
    simp [actionOutput, h]
  · cases hr : resolveConfig env with
    | fatal evs => simp [mainRun, hr]
    | ok c evs =>
      cases he : (executeCmd env c (negotiateStore env).storeErr).err <;>
        simp [mainRun, hr, he]
  · cases hr : resolveConfig env with
    | fatal evs => simp [mainRun, hr]
    | ok c evs =>
      cases he : (executeCmd env c (negotiateStore env).storeErr).err <;>
        simp [mainRun, hr, he]

/-- C2 witness: the silent sentinel is classified silent with empty output,
and a plain successful run exits 0 while a failing dispatch exits 1. -/
theorem c2_witness :
    actionOutput errSilent = [] ∧
    (mainRun envBase).exitCode = 0 ∧
    (mainRun { envBase with subErr := some errSilent }).exitCode = 1 := by
  refine ⟨(c2_classifier_priority_and_exit errSilent envBase).2.1 (by decide),
    ?_, ?_⟩
  · exact ((c2_classifier_priority_and_exit errSilent envBase).2.2.2).mpr
      (by decide)
  · rcases (c2_classifier_priority_and_exit errSilent
      { envBase with subErr := some errSilent }).2.2.1 with h | h
    · exfalso
      have := ((c2_classifier_priority_and_exit errSilent
        { envBase with subErr := some errSilent }).2.2.2).mp h
      revert this
      decide
    · exact h

/-- C9: a dispatch error is classified as unrecognized-command exactly when
its rendered message begins with "unknown command", and every such error is
printed raw — its own message, no remediation — whatever sentinel
identities its chain carries. -/
theorem c9_unknown_command_text :
    ∀ e : GoError,
      (classify e = .rawUnknown ↔ hasMsgHead "unknown command" e.msg = true) ∧
      (hasMsgHead "unknown command" e.msg = true → actionOutput e = [e.msg]) := by
  intro e
  cases hp : hasMsgHead "unknown command" e.msg <;>
  cases h1 : e.isPermission <;> cases h2 : e.isImmutable <;>
  cases h3 : e.isOprom <;> cases h4 : e.isNoEventlog <;>
  cases h5 : e.isSetupModeDisabled <;> cases h6 : e.isSilent <;>
    simp [classify, actionOutput, hp, h1, h2, h3, h4, h5, h6]

/-- C9 witness: an unrecognized-command message that also wraps the
permission sentinel is still printed raw. -/
theorem c9_witness :
    classify { msg := "unknown command \"statusx\" for \"sbctl\"",
               isPermission := true } = .rawUnknown ∧
    actionOutput { msg := "unknown command \"statusx\" for \"sbctl\"",
                   isPermission := true } =
      ["unknown command \"statusx\" for \"sbctl\""] :=
  ⟨(c9_unknown_command_text _).1.mpr (by decide),
   (c9_unknown_command_text _).2 (by decide)⟩

/-- C10 counterexample: an error that wraps `os.ErrPermission` but whose
rendered message begins with "unknown command" is printed raw, not given
the permission-denied action of the unwrapped sentinel — so a wrapping
error does not always receive the same output action as its sentinel. -/
theorem c10_counterexample :
    classify { msg := "unknown command wrapper", isPermission := true } =
      .rawUnknown ∧
    classify errPermission = .permissionDenied ∧
    actionOutput { msg := "unknown command wrapper", isPermission := true } ≠
      actionOutput errPermission := by decide

/-- C10 amended: each identity branch matches with `errors.Is`, so a
dispatch error that wraps one of the sentinels receives the same output
action as the unwrapped sentinel provided its rendered message does not
begin with "unknown command" and no sentinel of higher classifier priority
is also in its chain; and every dispatch error exits with status 1, the
same status as the unwrapped sentinel. -/
theorem c10_amended :
    (∀ e : GoError, hasMsgHead "unknown command" e.msg = false →
      (e.isPermission = true → classify e = classify errPermission) ∧
      (e.isImmutable = true → e.isPermission = false →
        classify e = classify errImmutable) ∧
      (e.isOprom = true → e.isPermission = false → e.isImmutable = false →
        classify e = classify errOprom) ∧
      (e.isNoEventlog = true → e.isPermission = false →
        e.isImmutable = false → e.isOprom = false →
        classify e = classify errNoEventlog) ∧
      (e.isSetupModeDisabled = true → e.isPermission = false →
        e.isImmutable = false → e.isOprom = false → e.isNoEventlog = false →
        classify e = classify errSetupModeDisabled) ∧
      (e.isSilent = true → e.isPermission = false → e.isImmutable = false →
        e.isOprom = false → e.isNoEventlog = false →
        e.isSetupModeDisabled = false → classify e = classify errSilent)) ∧
    (∀ env : Env, (mainRun env).dispatchErr ≠ none →
      (mainRun env).exitCode = 1) := by
  constructor
  · intro e hp
    have hP : classify errPermission = .permissionDenied := by decide
    have hI : classify errImmutable = .immutableStore := by decide
    have hO : classify errOprom = .opromWarn := by decide
    have hN : classify errNoEventlog = .noEventlogWarn := by decide
    have hS : classify errSetupModeDisabled = .setupModeWarn := by decide
    have hSi : classify errSilent = .silent := by decide
    refine ⟨?_, ?_, ?_, ?_, ?_, ?_⟩
    · intro a1
      rw [hP]; simp [classify, hp, a1]
    · intro a1 a2
      rw [hI]; simp [classify, hp, a1, a2]
    · intro a1 a2 a3
      rw [hO]; simp [classify, hp, a1, a2, a3]
    · intro a1 a2 a3 a4
      rw [hN]; simp [classify, hp, a1, a2, a3, a4]
    · intro a1 a2 a3 a4 a5
      rw [hS]; simp [classify, hp, a1, a2, a3, a4, a5]
    · intro a1 a2 a3 a4 a5 a6
      rw [hSi]; simp [classify, hp, a1, a2, a3, a4, a5, a6]
  · intro env h
    cases hr : resolveConfig env with
    | fatal evs => simp [mainRun, hr]
    | ok c evs =>
      cases he : (executeCmd env c (negotiateStore env).storeErr).err with
      | none =>
        exfalso
        apply h
        simp [mainRun, hr, he]
      | some e2 => simp [mainRun, hr, he]

/-- C10 amended witness: a wrapping of the immutable-store sentinel with a
plain message is classified exactly like the sentinel. -/
theorem c10_amended_witness :
    classify { msg := "remove db: file is immutable", isImmutable := true } =
      classify errImmutable :=
  (c10_amended.1 { msg := "remove db: file is immutable", isImmutable := true }
    (by decide)).2.1 (by decide) (by decide)

/-- C3: configuration resolution is strict first-match-wins. A legacy
configuration with no current-format file selects the legacy-compatibility
path and the run emits exactly one migration warning; otherwise an
existing current-format file is read and parsed, and a read or parse
failure terminates the process with exit status 1 before any subcommand
runs and before any sandbox policy is applied; otherwise built-in defaults
are used. -/
theorem c3_config_resolution :
    ∀ env : Env,
      (env.hasOldConfig = true → env.confFileExists = false →
        resolveConfig env = .ok oldConfig [Event.warnMigration] ∧
        oldConfig.source = .legacy ∧
        (mainRun env).events.count Event.warnMigration = 1) ∧
      (env.confFileExists = true →
        (env.readOk = false ∨ env.parsedConf = none →
          (mainRun env).events = [Event.fatalConfig] ∧
          (mainRun env).exitCode = 1 ∧
          Event.runSubcommand ∉ (mainRun env).events ∧
          Event.sandboxApply ∉ (mainRun env).events) ∧
        (∀ c2, env.readOk = true → env.parsedConf = some c2 →
          resolveConfig env = .ok c2 [])) ∧
      (env.hasOldConfig = false → env.confFileExists = false →
        resolveConfig env = .ok defaultConfig [] ∧
        defaultConfig.landlock = true) := by
  intro env
  refine ⟨?_, ?_, ?_⟩
  · intro ho hc
    have hr : resolveConfig env = .ok oldConfig [Event.warnMigration] := by
      simp [resolveConfig, ho, hc]
    refine ⟨hr, rfl, ?_⟩
    rw [mainRun_ok_events env oldConfig [Event.warnMigration] hr]
    have hstore : (negotiateStore env).events.count Event.warnMigration = 0 := by
      refine List.count_eq_zero.mpr ?_
      intro hm
      rcases store_events_cases env hm with h1 | ⟨_, h1⟩ | ⟨_, h1⟩ <;>
        simp at h1
    have hexec : ((executeCmd env oldConfig
        (negotiateStore env).storeErr).events).count Event.warnMigration = 0 := by
      refine List.count_eq_zero.mpr ?_
      intro hm
      rcases exec_events_cases env oldConfig _ hm with h1 | h1 | h1
      · simp at h1
      · simp at h1
      · rcases preRun_events_cases env h1 with ⟨_, h2⟩ | h2 | ⟨_, _, h2⟩ <;>
          simp at h2
    have htail : (runTail env oldConfig).count Event.warnMigration = 0 := by
      refine List.count_eq_zero.mpr ?_
      intro hm
      rcases runTail_cases env oldConfig hm with ⟨s, h1⟩ | ⟨_, _, h1⟩ <;>
        simp at h1
    simp [List.count_append, hstore, hexec, htail,
      show oldConfig.landlock = true from rfl]
  · intro hc
    constructor
    · intro hbad
      have hr : resolveConfig env = .fatal [Event.fatalConfig] := by
        rcases hbad with hb | hb <;> cases h3 : env.readOk <;>
          simp [resolveConfig, hc, hb, h3]
      obtain ⟨he, hx⟩ := mainRun_fatal env [Event.fatalConfig] hr
      rw [he]
      exact ⟨rfl, hx, by simp, by simp⟩
    · intro c2 hro hpc
      simp [resolveConfig, hc, hro, hpc]
  · intro ho hc
    exact ⟨by simp [resolveConfig, ho, hc], rfl⟩

/-- C3 witness: with a legacy configuration only, the run warns once and
uses the legacy source; with a malformed current-format file, the run is
the fatal report alone; with neither file, defaults with sandboxing
enabled apply. -/
theorem c3_witness :
    resolveConfig { envBase with hasOldConfig := true } =
      .ok oldConfig [Event.warnMigration] ∧
    (mainRun { envBase with hasOldConfig := true }).events.count
      Event.warnMigration = 1 ∧
    (mainRun { envBase with confFileExists := true }).exitCode = 1 ∧
    resolveConfig envBase = .ok defaultConfig [] := by
  refine ⟨((c3_config_resolution { envBase with hasOldConfig := true }).1
      (by decide) (by decide)).1,
    ((c3_config_resolution { envBase with hasOldConfig := true }).1
      (by decide) (by decide)).2.2, ?_, ?_⟩
  · exact (((c3_config_resolution
      { envBase with confFileExists := true }).2.1
      (by decide)).1 (Or.inr (by decide))).2.1
  · exact ((c3_config_resolution envBase).2.2 (by decide) (by decide)).1

/-- C1 counterexample: with the resolved configuration enabling sandboxing
(defaults) and `--disable-landlock` given, the sandbox policy is still
applied at top level — the override runs only inside dispatch, after the
gate — even though the subcommand then observes landlock disabled. -/
theorem c1_counterexample :
    Event.sandboxApply ∈
      (mainRun { envBase with
        flags := { disableLandlock := true } }).events ∧
    (mainRun { envBase with
        flags := { disableLandlock := true } }).subConf =
      some { landlock := false, source := .defaults } := by decide

/-- C1 amended: the sandbox gate is evaluated on the configuration as
resolved from files or defaults, before flag overrides: the Sandbox
Activator runs exactly when that configuration enables landlock, and when
it does the activation precedes the subcommand; `--disable-landlock` only
clears the landlock field of the configuration the subcommand observes. -/
theorem c1_landlock_gate_amended :
    ∀ (env : Env) (c : Config) (evs : List Event),
      resolveConfig env = .ok c evs →
      ((Event.sandboxApply ∈ (mainRun env).events) ↔ c.landlock = true) ∧
      (∀ c2, (mainRun env).subConf = some c2 →
        c2.landlock = (c.landlock && !env.flags.disableLandlock)) ∧
      (c.landlock = true → env.flagsOk = true → env.unknownCmd = none →
        eventBefore Event.sandboxApply Event.runSubcommand
          (mainRun env).events) := by
  intro env c evs h
  refine ⟨⟨?_, ?_⟩, ?_, ?_⟩
  · intro hmem
    cases hcl : c.landlock
    · exfalso
      rcases mainRun_ok_mem_vocab env c evs h hmem with
        h1 | h1 | h1 | ⟨_, h1⟩ | ⟨_, h1⟩ | ⟨h2, _⟩ | h1 | h1 | ⟨_, h1⟩ | h1 |
        ⟨_, _, h1⟩ | ⟨s, h1⟩ | ⟨_, _, h1⟩ <;> simp_all
    · rfl
  · intro hl
    rw [mainRun_ok_events env c evs h]
    simp [hl]
  · intro c2 hc2
    rw [mainRun_subConf env c evs h] at hc2
    rw [executeCmd_subConf env c _ c2 hc2]
    exact applyOverride_landlock env.flags c
  · intro hl hf hu
    rw [mainRun_ok_events env c evs h]
    have hex : (executeCmd env c (negotiateStore env).storeErr).events =
        preRunEvents env ++ [Event.runSubcommand] := by
      simp [executeCmd, hu, hf]
    rw [hex, hl]
    refine ⟨evs ++ [Event.tpmOpenAttempt env.tpmOk] ++
      (negotiateStore env).events, preRunEvents env, runTail env c, ?_⟩
    simp [List.append_assoc]

/-- C1 amended witness: on a defaults run with `--disable-landlock`, the
sandbox event is present and precedes the subcommand, and the subcommand
sees landlock off. -/
theorem c1_amended_witness :
    (Event.sandboxApply ∈
      (mainRun { envBase with flags := { disableLandlock := true } }).events) ∧
    ((mainRun { envBase with flags := { disableLandlock := true } }).subConf =
        some { landlock := false, source := .defaults }) ∧
    eventBefore Event.sandboxApply Event.runSubcommand
      (mainRun { envBase with flags := { disableLandlock := true } }).events := by
  have h := c1_landlock_gate_amended
    { envBase with flags := { disableLandlock := true } }
    defaultConfig [] (by decide)
  refine ⟨(h.1).mpr (by decide), ?_, (h.2.2) (by decide) (by decide) (by decide)⟩
  have h2 := h.2.1 { landlock := false, source := .defaults } (by decide)
  decide

/-- C5: when the TPM transport fails to open, the run proceeds — given the
configuration resolved and the command line parsed, the subcommand still
runs — the retained open-error value is reported in the TPM-absence
diagnostic exactly when debug verbosity is requested, and any such
diagnostic comes only after verbosity has been finalized from the parsed
flags. -/
theorem c5_tpm_tolerance :
    ∀ (env : Env) (c : Config) (evs : List Event),
      env.tpmOk = false → resolveConfig env = .ok c evs →
      env.flagsOk = true → env.unknownCmd = none →
      Event.runSubcommand ∈ (mainRun env).events ∧
      ((Event.tpmDebugDiag env.tpmErrMsg ∈ (mainRun env).events) ↔
        env.flags.debug = true) ∧
      (env.flags.debug = true →
        eventBefore (Event.verbositySet true)
          (Event.tpmDebugDiag env.tpmErrMsg) (mainRun env).events) := by
  intro env c evs ht h hf hu
  have hex : (executeCmd env c (negotiateStore env).storeErr).events =
      preRunEvents env ++ [Event.runSubcommand] := by
    simp [executeCmd, hu, hf]
  refine ⟨?_, ⟨?_, ?_⟩, ?_⟩
  · rw [mainRun_ok_events env c evs h, hex]
    simp
  · intro hmem
    rcases mainRun_ok_mem_vocab env c evs h hmem with
      h1 | h1 | h1 | ⟨_, h1⟩ | ⟨_, h1⟩ | ⟨_, h1⟩ | h1 | h1 | ⟨_, h1⟩ | h1 |
      ⟨_, hd, h1⟩ | ⟨s, h1⟩ | ⟨_, _, h1⟩ <;> simp_all
  · intro hd
    rw [mainRun_ok_events env c evs h, hex]
    simp [preRunEvents, ht, hd]
  · intro hd
    rw [mainRun_ok_events env c evs h, hex]
    have hpre : preRunEvents env =
        (if env.flags.disableLandlock then [Event.landlockOverride] else [])
          ++ [Event.verbositySet true]
          ++ [Event.tpmDebugDiag env.tpmErrMsg] := by
      simp [preRunEvents, ht, hd]
    rw [hpre]
    refine ⟨evs ++ [Event.tpmOpenAttempt env.tpmOk]
      ++ (negotiateStore env).events
      ++ (if c.landlock then [Event.sandboxApply] else [])
      ++ (if env.flags.disableLandlock then [Event.landlockOverride] else []),
      [], Event.runSubcommand :: runTail env c, ?_⟩
    simp [List.append_assoc]

/-- C5 witness: in a TPM-less debug run, the subcommand runs, the
diagnostic carrying the retained error appears, and it follows the
verbosity finalization. -/
theorem c5_witness :
    Event.runSubcommand ∈ (mainRun envTpmAbsent).events ∧
    Event.tpmDebugDiag "no tpm device" ∈ (mainRun envTpmAbsent).events ∧
    eventBefore (Event.verbositySet true) (Event.tpmDebugDiag "no tpm device")
      (mainRun envTpmAbsent).events := by
  have h := c5_tpm_tolerance envTpmAbsent defaultConfig [] (by decide)
    (by decide) (by decide) (by decide)
  exact ⟨h.1, h.2.1.mpr (by decide), h.2.2 (by decide)⟩

/-- C6: firmware-store negotiation is ordered — immutability check, then
clear when the flag is set, then open — the store is opened at most once
per run, and a clear failure propagates the distinguished immutable-store
error: the run prints the immutable-store remediation, never opens the
store, and exits 1. -/
theorem c6_store_negotiation :
    (∀ env : Env, (mainRun env).events.count Event.storeOpenRW ≤ 1) ∧
    (∀ (env : Env) (c : Config) (evs : List Event),
      resolveConfig env = .ok c evs →
      (env.storeImmutable = true →
        eventBefore Event.storeCheckImmutable Event.storeClearImmutable
          (mainRun env).events) ∧
      (env.storeImmutable = true → env.storeClearOk = true →
        eventBefore Event.storeClearImmutable Event.storeOpenRW
          (mainRun env).events) ∧
      (env.storeImmutable = false →
        eventBefore Event.storeCheckImmutable Event.storeOpenRW
          (mainRun env).events) ∧
      (env.storeImmutable = true → env.storeClearOk = false →
        env.flagsOk = true → env.unknownCmd = none →
        (mainRun env).exitCode = 1 ∧
        Event.printLine immutableRemediation ∈ (mainRun env).events ∧
        Event.storeOpenRW ∉ (mainRun env).events)) := by
  constructor
  · intro env
    cases hr : resolveConfig env with
    | fatal evs =>
      obtain ⟨he, _⟩ := mainRun_fatal env evs hr
      rw [he]
      simp
    | ok c evs =>
      rw [mainRun_ok_events env c evs hr]
      have h0 : evs.count Event.storeOpenRW = 0 := by
        rcases resolve_ok_evs env c evs hr with rfl | rfl <;> simp
      have hstore : (negotiateStore env).events.count Event.storeOpenRW ≤ 1 := by
        cases h1 : env.storeImmutable <;> cases h2 : env.storeClearOk <;>
          simp [negotiateStore, h1, h2]
      have hexec : ((executeCmd env c
          (negotiateStore env).storeErr).events).count Event.storeOpenRW = 0 := by
        refine List.count_eq_zero.mpr ?_
        intro hm
        rcases exec_events_cases env c _ hm with h1 | h1 | h1
        · simp at h1
        · simp at h1
        · rcases preRun_events_cases env h1 with ⟨_, h2⟩ | h2 | ⟨_, _, h2⟩ <;>
            simp at h2
      have htail : (runTail env c).count Event.storeOpenRW = 0 := by
        refine List.count_eq_zero.mpr ?_
        intro hm
        rcases runTail_cases env c hm with ⟨s, h1⟩ | ⟨_, _, h1⟩ <;> simp at h1
      have hite : (if c.landlock then [Event.sandboxApply]
          else []).count Event.storeOpenRW = 0 := by
        cases hl : c.landlock <;> simp [hl]
      simp [List.count_append, h0, hexec, htail, hite]
      exact hstore
  · intro env c evs hr
    refine ⟨?_, ?_, ?_, ?_⟩
    · intro hi
      rw [mainRun_ok_events env c evs hr]
      have hs : (negotiateStore env).events =
          Event.storeCheckImmutable :: Event.storeClearImmutable ::
            (if env.storeClearOk then [Event.storeOpenRW] else []) := by
        cases h2 : env.storeClearOk <;> simp [negotiateStore, hi, h2]
      rw [hs]
      refine ⟨evs ++ [Event.tpmOpenAttempt env.tpmOk], [],
        (if env.storeClearOk then [Event.storeOpenRW] else [])
          ++ (if c.landlock then [Event.sandboxApply] else [])
          ++ (executeCmd env c (negotiateStore env).storeErr).events
          ++ runTail env c, ?_⟩
      simp [List.append_assoc]
    · intro hi h2
      rw [mainRun_ok_events env c evs hr]
      have hs : (negotiateStore env).events =
          [Event.storeCheckImmutable, Event.storeClearImmutable,
           Event.storeOpenRW] := by
        simp [negotiateStore, hi, h2]
      rw [hs]
      refine ⟨evs ++ [Event.tpmOpenAttempt env.tpmOk] ++
        [Event.storeCheckImmutable], [],
        (if c.landlock then [Event.sandboxApply] else [])
          ++ (executeCmd env c (negotiateStore env).storeErr).events
          ++ runTail env c, ?_⟩
      simp [List.append_assoc]
    · intro hi
      rw [mainRun_ok_events env c evs hr]
      have hs : (negotiateStore env).events =
          [Event.storeCheckImmutable, Event.storeOpenRW] := by
        simp [negotiateStore, hi]
      rw [hs]
      refine ⟨evs ++ [Event.tpmOpenAttempt env.tpmOk], [],
        (if c.landlock then [Event.sandboxApply] else [])
          ++ (executeCmd env c (negotiateStore env).storeErr).events
          ++ runTail env c, ?_⟩
      simp [List.append_assoc]
    · intro hi h2 hf hu
      have hse : (negotiateStore env).storeErr = some errImmutable := by
        simp [negotiateStore, hi, h2]
      have herr : (executeCmd env c (negotiateStore env).storeErr).err =
          some errImmutable := by
        simp [executeCmd, hu, hf, hse]
      refine ⟨by simp [mainRun, hr, herr], ?_, ?_⟩
      · rw [mainRun_ok_events env c evs hr]
        have htl : runTail env c = [Event.printLine immutableRemediation] := by
          have hact : actionOutput errImmutable = [immutableRemediation] := by
            decide
          simp [runTail, herr, hact]
        rw [htl]
        simp
      · intro hmem
        rcases mainRun_ok_mem_vocab env c evs hr hmem with
          h1 | h1 | h1 | ⟨_, h1⟩ | ⟨hcond, h1⟩ | ⟨_, h1⟩ | h1 | h1 | ⟨_, h1⟩ |
          h1 | ⟨_, _, h1⟩ | ⟨s, h1⟩ | ⟨_, _, h1⟩ <;> simp_all

/-- C6 witness: a run whose store is immutable and whose clear fails:
check precedes clear, the remediation is printed, the store never opens,
and the exit status is 1; the plain run opens the store exactly once. -/
theorem c6_witness :
    eventBefore Event.storeCheckImmutable Event.storeClearImmutable
      (mainRun envStoreStuck).events ∧
    (mainRun envStoreStuck).exitCode = 1 ∧
    Event.printLine immutableRemediation ∈ (mainRun envStoreStuck).events ∧
    Event.storeOpenRW ∉ (mainRun envStoreStuck).events ∧
    (mainRun envBase).events.count Event.storeOpenRW ≤ 1 := by
  have h := (c6_store_negotiation.2 envStoreStuck defaultConfig [] (by decide))
  have h4 := h.2.2.2 (by decide) (by decide) (by decide) (by decide)
  exact ⟨h.1 (by decide), h4.1, h4.2.1, h4.2.2,
    c6_store_negotiation.1 envBase⟩

/-- C7 counterexample: a run that opened the TPM transport and then failed
in dispatch exits with status 1 through os.Exit, which does not run the
deferred close — the transport is not closed on this exit path. -/
theorem c7_counterexample :
    (mainRun { envBase with subErr := some { msg := "boom" } }).exitCode = 1 ∧
    Event.tpmOpenAttempt true ∈
      (mainRun { envBase with subErr := some { msg := "boom" } }).events ∧
    Event.tpmClose ∉
      (mainRun { envBase with subErr := some { msg := "boom" } }).events := by
  decide

/-- C7 amended: the deferred transport close runs exactly on the normal
return path: when the run exits 0 the transport is closed if and only if
it was opened, and on every status-1 exit path — classified dispatch
errors and fatal configuration errors alike — the close never happens
because the process leaves through os.Exit(1) or log.Fatal. -/
theorem c7_tpm_close_amended :
    ∀ env : Env,
      ((mainRun env).exitCode = 0 →
        (env.tpmOk = true ↔ Event.tpmClose ∈ (mainRun env).events)) ∧
      ((mainRun env).exitCode = 1 →
        Event.tpmClose ∉ (mainRun env).events) := by
  intro env
  cases hr : resolveConfig env with
  | fatal evs =>
    obtain ⟨he, hx⟩ := mainRun_fatal env evs hr
    constructor
    · intro h0
      rw [hx] at h0
      simp at h0
    · intro _
      rw [he]
      simp
  | ok c evs =>
    cases herr : (executeCmd env c (negotiateStore env).storeErr).err with
    | some e =>
      constructor
      · intro h0
        have hx : (mainRun env).exitCode = 1 := by simp [mainRun, hr, herr]
        rw [hx] at h0
        simp at h0
      · intro _ hmem
        rcases mainRun_ok_mem_vocab env c evs hr hmem with
          h1 | h1 | h1 | ⟨_, h1⟩ | ⟨_, h1⟩ | ⟨_, h1⟩ | h1 | h1 | ⟨_, h1⟩ |
          h1 | ⟨_, _, h1⟩ | ⟨s, h1⟩ | ⟨hnone, _, h1⟩ <;> simp_all
    | none =>
      constructor
      · intro _
        constructor
        · intro ht
          rw [mainRun_ok_events env c evs hr]
          have htl : runTail env c = [Event.tpmClose] := by
            simp [runTail, herr, ht]
          rw [htl]
          simp
        · intro hmem
          rcases mainRun_ok_mem_vocab env c evs hr hmem with
            h1 | h1 | h1 | ⟨_, h1⟩ | ⟨_, h1⟩ | ⟨_, h1⟩ | h1 | h1 | ⟨_, h1⟩ |
            h1 | ⟨_, _, h1⟩ | ⟨s, h1⟩ | ⟨_, hok, h1⟩ <;> simp_all
      · intro h1
        have hx : (mainRun env).exitCode = 0 := by simp [mainRun, hr, herr]
        rw [hx] at h1
        simp at h1

/-- C7 amended witness: the plain successful run closes its opened
transport; the same run with a failing subcommand exits 1 without the
close. -/
theorem c7_amended_witness :
    Event.tpmClose ∈ (mainRun envBase).events ∧
    Event.tpmClose ∉
      (mainRun { envBase with subErr := some errOprom }).events :=
  ⟨((c7_tpm_close_amended envBase).1 (by decide)).mp (by decide),
   (c7_tpm_close_amended { envBase with subErr := some errOprom }).2
     (by decide)⟩

/-- C8 counterexample: a run given `--config /etc/alternative/sbctl.conf`
resolves exactly the configuration parsed from the canonical path, and the
whole run is identical to the run without the flag: the override takes no
effect on the resolved configuration. -/
theorem c8_counterexample :
    envCfgFlag.flags.configPath = "/etc/alternative/sbctl.conf" ∧
    resolveConfig envCfgFlag =
      .ok { landlock := true, source := .current } [] ∧
    mainRun envCfgFlag = mainRun envCfgNoFlag := by decide

/-- C8 amended: the `--config` flag is registered and its value stored,
but nothing in the bootstrap consults it: the run — configuration
resolution included — is independent of the flag's value. -/
theorem c8_config_flag_amended :
    ∀ (env : Env) (p : String),
      mainRun { env with flags := { env.flags with configPath := p } } =
        mainRun env := by
  intro env p
  rfl

/-- C4: at the failing input — a run with `--json` — the logging state in
effect when the subcommand runs still has printing on: the pre-run hook
installed by baseFlags, the only code calling `logging.PrintOff()` for
`--json`, is replaced by the assignment at main.go line 136, which never
suppresses printing; the replaced hook would have turned it off. -/
theorem c4_json_suppression_bug :
    envJson.flags.jsonOutput = true ∧
    (mainRun envJson).subLog = some initLogState ∧
    initLogState.printOn = true ∧
    (baseFlagsPreRunLog envJson.flags initLogState).printOn = false := by
  decide

end Sbctl
